import Mathlib

set_option linter.unusedVariables false

/-!
Verification of the KingDB byte-array family (`src/byte_array.h`) and the
Snapshot component (`src/interface/snapshot.h`) against their specification.

The C++ classes are shallowly embedded: byte buffers become `List Nat`
(one element per byte), pointers into a buffer become explicit offsets,
and the status objects returned on the read path become an inductive type.
-/

namespace KingDB

/--
Status values used by the code under `src/`.  The source constructs
`Status::OK()`, `Status::Done()`, `Status::IOError(msg)` and tests
`IsOK`, `IsDone`, `IsNotFound`; `util/status.h` itself is not part of the
given sources.  The constructors `ChecksumError` and `UnsupportedOperation`
are Modelled from the spec: the error taxonomy of the spec (§7) lists them as
status categories distinct from `IOError`; they are included so that
claims comparing the returned status against those categories can be
stated, even though no call site in `src/` ever constructs them.
-/
inductive Status where
  | OK : Status
  | Done : Status
  | NotFound (msg : String) : Status
  | IOError (msg : String) : Status
  | ChecksumError (msg : String) : Status
  | UnsupportedOperation (msg : String) : Status
deriving DecidableEq

def Status.IsOK : Status → Bool
  | .OK => true
  | _ => false

def Status.IsDone : Status → Bool
  | .Done => true
  | _ => false

def Status.IsNotFound : Status → Bool
  | .NotFound _ => true
  | _ => false

def Status.IsIOError : Status → Bool
  | .IOError _ => true
  | _ => false

def Status.IsChecksumError : Status → Bool
  | .ChecksumError _ => true
  | _ => false

def Status.IsUnsupportedOperation : Status → Bool
  | .UnsupportedOperation _ => true
  | _ => false

/--
Embedding of the base-class state visible to `ByteArray::operator==`:
`mem` is the sequence of bytes addressable from the `data_` pointer and
`sz` is the value of `size_`.  A view is well formed when `size_` bytes
are actually addressable (`sz ≤ mem.length`).
-/
structure ByteArrayView where
  mem : List Nat
  sz : Nat
deriving DecidableEq

/-- The logical content of a view: the `size_` bytes starting at `data_`. -/
def ByteArrayView.content (a : ByteArrayView) : List Nat :=
  a.mem.take a.sz

/--
Embedding of `ByteArray::operator==`:
`size_ == right.size_const() && memcmp(data_, right.data_const(), size_) == 0`.
`memcmp` over `size_` bytes compares the first `size_` bytes of both
pointers, so it is the (decidable) equality of the two `size_`-byte takes.
-/
def ByteArrayView.eqOp (a b : ByteArrayView) : Bool :=
  a.sz == b.sz && (a.mem.take a.sz == b.mem.take a.sz)

/-- Outcome of running the `Mmap` constructor. -/
inductive MmapResult where
  | fatalExit : MmapResult
  | mapped (fd : Nat) (datafile : List Nat) : MmapResult
deriving DecidableEq

/--
The OS `mmap` call as seen by the constructor.  `mmapOutcome` gives the
mapping result for a valid descriptor; calling `mmap` on an invalid
descriptor (the `fd_ < 0` left behind by a failed `open`) fails with
`EBADF`, which `mmap` reports as `MAP_FAILED`, i.e. `none` here.
-/
def osMmapCall (fd : Int) (mmapOutcome : Nat → Option (List Nat)) : Option (List Nat) :=
  if fd < 0 then none else mmapOutcome fd.toNat

/--
Embedding of `Mmap::Mmap(filepath, filesize)`.  `openOutcome` is the result
of `open(filepath, O_RDONLY)`: `some fd` on success, `none` when it returns
a negative descriptor.  On open failure the constructor only logs
(`LOG_EMERG`) and continues with the invalid descriptor; the subsequent
`mmap` then yields `MAP_FAILED` and the constructor calls `exit(-1)`,
embedded as `MmapResult.fatalExit`.
-/
def Mmap.construct (openOutcome : Option Nat)
    (mmapOutcome : Nat → Option (List Nat)) : MmapResult :=
  let fd : Int :=
    match openOutcome with
    | none => -1
    | some fd => (fd : Int)
  match osMmapCall fd mmapOutcome with
  | none => MmapResult.fatalExit
  | some buf => MmapResult.mapped fd.toNat buf

/--
A chunk handed back by `data_chunk`: either a pointer into the shared
mapping (offset and length, no copy, no allocation) or a freshly
allocated buffer produced by the decompressor.
-/
inductive Chunk where
  | mapped (off : Nat) (len : Nat) : Chunk
  | fresh (bytes : List Nat) : Chunk
deriving DecidableEq

/--
Modelled from the spec: `crc32c.h` is not under `src/`; the spec treats
the checksum as an opaque CRC32-class function of the byte stream
(§6 `IntegrityHasher`, glossary "Checksum (CRC32-class)").  A concrete
executable 32-bit accumulator stands in for it; the verified claims
depend only on how the hasher is streamed and compared, not on the
polynomial itself.
-/
def crc32Fun (bytes : List Nat) : Nat :=
  bytes.foldl (fun acc b => (acc * 131 + b) % 4294967296) 0

/--
Embedding of `SharedMmappedByteArray`.  `mmapBuf` is the mapped file
(`mmap_->datafile_`), `off` the offset such that `data_ = datafile_ + off`,
`sz` the value of `size_`, `size_compressed` and `crc32_value` the stored
metadata.  `compressorFrames` is the internal state of the streaming
decompressor (Modelled from the spec, `compressor.h` not being under
`src/`: the codec is invoked once per frame, returning the frames of the
compressed region in order and then reporting Done).  `crc32Bytes` is the
internal state of the incremental hasher: the bytes streamed so far.
-/
structure SharedMmappedByteArray where
  mmapBuf : List Nat
  off : Nat
  sz : Nat
  size_compressed : Nat
  crc32_value : Nat
  compressorFrames : List (List Nat)
  crc32Bytes : List Nat
deriving DecidableEq

namespace SharedMmappedByteArray

/-- Embedding of `SharedMmappedByteArray::SetOffset(offset, size)`. -/
def SetOffset (a : SharedMmappedByteArray) (offset size : Nat) :
    SharedMmappedByteArray :=
  { a with off := offset, sz := size }

/-- Embedding of `SharedMmappedByteArray::AddSize(add)`. -/
def AddSize (a : SharedMmappedByteArray) (add : Nat) :
    SharedMmappedByteArray :=
  { a with sz := a.sz + add }

/-- The bytes visible through the view: `size_` bytes from `data_`. -/
def viewBytes (a : SharedMmappedByteArray) : List Nat :=
  (a.mmapBuf.drop a.off).take a.sz

/--
Embedding of `SharedMmappedByteArray::data_chunk(data_out, size_out)`.
Returns the status, the chunk written through the out-parameters, and
the object state after the call.  Mirrors the source: when
`size_compressed_ == 0` it returns `(data_, size_)` with `Done`;
otherwise it calls `compressor_.Uncompress`, and on a Done result
compares the accumulated checksum with `crc32_value_` (returning
`IOError "Bad CRC32"` on mismatch, the Done status otherwise), on a
non-OK result passes the status through, and on OK streams the decoded
frame into the hasher and returns `OK`.
-/
def data_chunk (a : SharedMmappedByteArray) :
    Status × Option Chunk × SharedMmappedByteArray :=
  if a.size_compressed = 0 then
    (Status.Done, some (Chunk.mapped a.off a.sz), a)
  else
    match a.compressorFrames with
    | [] =>
      if crc32Fun a.crc32Bytes ≠ a.crc32_value then
        (Status.IOError "Bad CRC32", none, a)
      else
        (Status.Done, none, a)
    | f :: rest =>
      (Status.OK, some (Chunk.fresh f),
        { a with compressorFrames := rest, crc32Bytes := a.crc32Bytes ++ f })

/-- The state after `n` successive calls to `data_chunk`. -/
def iterateChunk (a : SharedMmappedByteArray) : Nat → SharedMmappedByteArray
  | 0 => a
  | n + 1 => (data_chunk (iterateChunk a n)).2.2

end SharedMmappedByteArray

/--
Embedding of `SharedAllocatedByteArray`: a reference-counted heap buffer
(`data_allocated_`) with `data_ = data_allocated_.get() + off` and
`size_ = sz`.
-/
structure SharedAllocatedByteArray where
  data_allocated : List Nat
  off : Nat
  sz : Nat
deriving DecidableEq

namespace SharedAllocatedByteArray

/-- Embedding of `SharedAllocatedByteArray::SetOffset(offset, size)`. -/
def SetOffset (a : SharedAllocatedByteArray) (offset size : Nat) :
    SharedAllocatedByteArray :=
  { a with off := offset, sz := size }

/-- Embedding of `SharedAllocatedByteArray::AddSize(add)`. -/
def AddSize (a : SharedAllocatedByteArray) (add : Nat) :
    SharedAllocatedByteArray :=
  { a with sz := a.sz + add }

/-- The bytes visible through the view: `size_` bytes from `data_`. -/
def viewBytes (a : SharedAllocatedByteArray) : List Nat :=
  (a.data_allocated.drop a.off).take a.sz

end SharedAllocatedByteArray

/--
C `strncpy(dst, src, n)` semantics on byte lists: bytes are copied from
`src` until a NUL byte is reached; the NUL and every remaining position
up to `n` are filled with zeros.  (Reading past the end of `src` is
likewise modelled as NUL padding.)
-/
def strncpyList : List Nat → Nat → List Nat
  | _, 0 => []
  | [], n + 1 => List.replicate (n + 1) 0
  | b :: bs, n + 1 =>
    if b = 0 then List.replicate (n + 1) 0 else b :: strncpyList bs n

/--
Embedding of `AllocatedByteArray`: a privately owned buffer `data` of
`sz` bytes.
-/
structure AllocatedByteArray where
  data : List Nat
  sz : Nat
deriving DecidableEq

/--
Embedding of `AllocatedByteArray::AllocatedByteArray(data_in, size_in)`:
sets `size_ = size_in`, allocates `size_` bytes and fills them with
`strncpy(data_, data_in, size_)`.
-/
def AllocatedByteArray.ofCopy (data_in : List Nat) (size_in : Nat) :
    AllocatedByteArray :=
  { sz := size_in, data := strncpyList data_in size_in }

/--
The storage-engine interface as consumed by `Snapshot::Get`
(`interface.h` is not under `src/`): an engine is characterised by its
`Get` behaviour, a function from a key to a status and an optional
materialized value.
-/
structure StorageEngine where
  getFun : List Nat → Status × Option (List Nat)

/--
Embedding of the `Snapshot` fields (`src/interface/snapshot.h`).
`db_options` is opaque to every claim and kept as a bare number.
-/
structure Snapshot where
  db_options : Nat
  dbname : String
  se_live : StorageEngine
  se_readonly : StorageEngine
  snapshot_id : Nat
  fileids_iterator : List Nat
  is_closed : Bool

namespace Snapshot

/--
Embedding of `Snapshot::Get(read_options, key, value_out)`:
`Status s = se_readonly_->Get(key, value_out);` followed by a three-way
branch on `s.IsNotFound()` / `s.IsOK()` / otherwise, each of which
returns `s` with `value_out` untouched beyond what the engine wrote.
The result carries the status, the value written through `value_out`,
and the snapshot state after the call.
-/
def Get (s : Snapshot) (read_options : Nat) (key : List Nat) :
    Status × Option (List Nat) × Snapshot :=
  let r := s.se_readonly.getFun key
  if r.1.IsNotFound then (r.1, r.2, s)
  else if r.1.IsOK then (r.1, r.2, s)
  else (r.1, r.2, s)

/--
Embedding of `Snapshot::Put(write_options, key, chunk)`:
`return Status::IOError("Not supported");` — the body is a single
return statement, so the snapshot (and both engines it holds) is
returned unchanged.
-/
def Put (s : Snapshot) (write_options : Nat) (key chunk : List Nat) :
    Status × Snapshot :=
  (Status.IOError "Not supported", s)

/--
Embedding of `Snapshot::PutChunk(write_options, key, chunk, offset_chunk,
size_value)`: `return Status::IOError("Not supported");`.
-/
def PutChunk (s : Snapshot) (write_options : Nat) (key chunk : List Nat)
    (offset_chunk size_value : Nat) : Status × Snapshot :=
  (Status.IOError "Not supported", s)

/--
Embedding of `Snapshot::Remove(write_options, key)`:
`return Status::IOError("Not supported");`.
-/
def Remove (s : Snapshot) (write_options : Nat) (key : List Nat) :
    Status × Snapshot :=
  (Status.IOError "Not supported", s)

end Snapshot

/--
Side effects performed by `Snapshot::Close()`, counted per invocation
site: calls to `se_live_->ReleaseSnapshot(snapshot_id_)`, deletions of
`fileids_iterator_`, and deletions of `se_readonly_`.
-/
structure CloseEffects where
  releaseSnapshotCalls : Nat
  fileidsDeletes : Nat
  seReadonlyDeletes : Nat
deriving DecidableEq

/--
The lifecycle state of a `Snapshot` relevant to `Close()` and the
destructor: the `is_closed_` flag together with the accumulated side
effects.
-/
structure SnapshotLifecycle where
  is_closed : Bool
  fx : CloseEffects
deriving DecidableEq

namespace SnapshotLifecycle

/-- Lifecycle state of a freshly constructed snapshot (`is_closed_(false)`). -/
def init : SnapshotLifecycle :=
  { is_closed := false, fx := ⟨0, 0, 0⟩ }

/--
Embedding of `Snapshot::Close()`: under `mutex_close_`, if `is_closed_`
return immediately; otherwise set the flag, delete `fileids_iterator_`,
call `se_live_->ReleaseSnapshot(snapshot_id_)`, and delete
`se_readonly_`.
-/
def CloseStep (s : SnapshotLifecycle) : SnapshotLifecycle :=
  if s.is_closed then s
  else
    { is_closed := true,
      fx := ⟨s.fx.releaseSnapshotCalls + 1, s.fx.fileidsDeletes + 1,
             s.fx.seReadonlyDeletes + 1⟩ }

/-- Embedding of `Snapshot::~Snapshot()`: logs and calls `Close()`. -/
def DtorStep (s : SnapshotLifecycle) : SnapshotLifecycle :=
  CloseStep s

/-- One lifecycle event: an explicit `Close()` call or destruction. -/
inductive Event where
  | closeCall : Event
  | dtorCall : Event
deriving DecidableEq

def applyEvent (s : SnapshotLifecycle) : Event → SnapshotLifecycle
  | .closeCall => CloseStep s
  | .dtorCall => DtorStep s

/-- Run a sequence of lifecycle events from a given state. -/
def runEvents (s : SnapshotLifecycle) : List Event → SnapshotLifecycle
  | [] => s
  | e :: es => runEvents (applyEvent s e) es

end SnapshotLifecycle

/-- A concrete storage engine used to evaluate the embedded operations. -/
def sampleEngine : StorageEngine :=
  ⟨fun k => if k = [1] then (Status.OK, some [7]) else (Status.NotFound "nf", none)⟩

/-- A concrete open snapshot over `sampleEngine`. -/
def sampleSnapshot : Snapshot :=
  { db_options := 0, dbname := "db", se_live := sampleEngine,
    se_readonly := sampleEngine, snapshot_id := 1, fileids_iterator := [1, 2],
    is_closed := false }

/--
A concrete compressed mapped view whose stored checksum (0) does not match
the checksum of its decoded stream `[1, 2, 3]`: a corrupted value.
-/
def corruptedView : SharedMmappedByteArray :=
  { mmapBuf := [9, 9, 9, 9], off := 0, sz := 3, size_compressed := 4,
    crc32_value := 0, compressorFrames := [[1, 2, 3]], crc32Bytes := [] }

/--
A concrete compressed mapped view decoding over two frames whose stored
checksum matches the checksum of its decoded stream `[1, 2]`.
-/
def sampleCompressedView : SharedMmappedByteArray :=
  { mmapBuf := [5, 5, 5], off := 0, sz := 2, size_compressed := 3,
    crc32_value := crc32Fun [1, 2], compressorFrames := [[1], [2]],
    crc32Bytes := [] }

/- ------------------------------------------------------------------ -/
/- Theorems                                                            -/
/- ------------------------------------------------------------------ -/

/--
Helper: once `is_closed_` is set, any further sequence of `Close()` calls
and destructor runs leaves the lifecycle state untouched.
-/
lemma runEvents_of_closed (evs : List SnapshotLifecycle.Event)
    (s : SnapshotLifecycle) (h : s.is_closed = true) :
    SnapshotLifecycle.runEvents s evs = s := by
  induction evs with
  | nil => rfl
  | cons e es ih =>
    have happ : SnapshotLifecycle.applyEvent s e = s := by
      cases e <;>
        simp [SnapshotLifecycle.applyEvent, SnapshotLifecycle.DtorStep,
          SnapshotLifecycle.CloseStep, h]
    rw [SnapshotLifecycle.runEvents, happ, ih]

/--
Claim C4: starting from a fresh snapshot, any nonempty sequence of
`Close()` calls and destructor runs, in any order, calls
`ReleaseSnapshot(snapshot_id)` on the live engine exactly once, frees the
file-id set exactly once, and destroys the private read-only engine
exactly once; and every call after the first Open→Closed transition
leaves all state unchanged.
-/
theorem snapshot_close_releases_once :
    (∀ evs : List SnapshotLifecycle.Event, evs ≠ [] →
        (SnapshotLifecycle.runEvents SnapshotLifecycle.init evs).is_closed
          = true ∧
        (SnapshotLifecycle.runEvents SnapshotLifecycle.init evs).fx
          = ⟨1, 1, 1⟩) ∧
    (∀ (s : SnapshotLifecycle) (e : SnapshotLifecycle.Event),
        s.is_closed = true → SnapshotLifecycle.applyEvent s e = s) := by
  constructor
  · intro evs hne
    match evs with
    | e :: es =>
      have h1 : SnapshotLifecycle.applyEvent SnapshotLifecycle.init e
          = ⟨true, 1, 1, 1⟩ := by
        cases e <;> rfl
      rw [SnapshotLifecycle.runEvents, h1,
        runEvents_of_closed es ⟨true, 1, 1, 1⟩ rfl]
      exact ⟨rfl, rfl⟩
  · intro s e h
    cases e <;>
      simp [SnapshotLifecycle.applyEvent, SnapshotLifecycle.DtorStep,
        SnapshotLifecycle.CloseStep, h]

/--
Witness for C4: the sequence explicit close followed by destruction
performs each release effect exactly once.
-/
theorem snapshot_close_releases_once_witness :
    (SnapshotLifecycle.runEvents SnapshotLifecycle.init
        [SnapshotLifecycle.Event.closeCall, SnapshotLifecycle.Event.dtorCall]).fx
      = ⟨1, 1, 1⟩ :=
  (snapshot_close_releases_once.1
    [SnapshotLifecycle.Event.closeCall, SnapshotLifecycle.Event.dtorCall]
    (by decide)).2

/--
Claim C5: if opening the file fails, or if mapping the file fails, the
`Mmap` constructor does not return a usable mapping: it reaches the
fatal-exit outcome (a failed `open` leaves an invalid descriptor, the
subsequent `mmap` on it fails, and the `MAP_FAILED` branch calls
`exit(-1)`).
-/
theorem mmap_construct_failure_fatal (oo : Option Nat)
    (mo : Nat → Option (List Nat))
    (h : oo = none ∨ ∃ fd, oo = some fd ∧ mo fd = none) :
    Mmap.construct oo mo = MmapResult.fatalExit := by
  rcases h with h | ⟨fd, hfd, hmo⟩
  · subst h; rfl
  · subst hfd
    have hge : ¬((fd : Int) < 0) := by omega
    simp [Mmap.construct, osMmapCall, hge, hmo]

/-- Witness for C5: a failed `open` yields the fatal-exit outcome. -/
theorem mmap_construct_failure_fatal_witness :
    Mmap.construct none (fun _ => none) = MmapResult.fatalExit :=
  mmap_construct_failure_fatal none (fun _ => none) (Or.inl rfl)

/--
Claim C6: `Snapshot::Get` returns exactly the status and materialized
value produced by `Get` of the private frozen engine (NotFound, OK, and
every other status passed through unchanged), changes no snapshot state,
and its status and value do not depend on the live engine in any way.
-/
theorem snapshot_get_delegates (s : Snapshot) (ro : Nat) (key : List Nat) :
    s.Get ro key
      = ((s.se_readonly.getFun key).1, (s.se_readonly.getFun key).2, s) ∧
    (∀ live : StorageEngine,
        (({ s with se_live := live } : Snapshot).Get ro key).1
          = (s.Get ro key).1 ∧
        (({ s with se_live := live } : Snapshot).Get ro key).2.1
          = (s.Get ro key).2.1) := by
  refine ⟨?_, fun live => ⟨?_, ?_⟩⟩ <;> simp [Snapshot.Get]

/--
Counterexample for C1: at a concrete snapshot and concrete arguments,
`Put`, `PutChunk`, and `Remove` return the generic IOError status with
message "Not supported", not an UnsupportedOperation status.
-/
theorem snapshot_put_not_unsupported_cex :
    (sampleSnapshot.Put 0 [1] [2]).1 = Status.IOError "Not supported" ∧
    (sampleSnapshot.Put 0 [1] [2]).1.IsUnsupportedOperation = false ∧
    (sampleSnapshot.PutChunk 0 [1] [2] 0 1).1.IsUnsupportedOperation = false ∧
    (sampleSnapshot.Remove 0 [1]).1.IsUnsupportedOperation = false :=
  ⟨rfl, rfl, rfl, rfl⟩

/--
Claim C1 (amended): for every snapshot and every write arguments, `Put`,
`PutChunk`, and `Remove` each return the IOError status with message
"Not supported", and neither the live engine, the frozen engine, nor any
field of the snapshot is changed by the call.
-/
theorem snapshot_writes_ioerror_unchanged (s : Snapshot) (wo : Nat)
    (key chunk : List Nat) (offset_chunk size_value : Nat) :
    s.Put wo key chunk = (Status.IOError "Not supported", s) ∧
    s.PutChunk wo key chunk offset_chunk size_value
      = (Status.IOError "Not supported", s) ∧
    s.Remove wo key = (Status.IOError "Not supported", s) :=
  ⟨rfl, rfl, rfl⟩

/--
Claim C8: evaluating the copy constructor of `AllocatedByteArray` on the
3-byte span `[65, 0, 66]` (which contains an embedded NUL) reports
`size() = 3` but stores `[65, 0, 0]`: `strncpy` stops copying at the NUL
and zero-pads, so the stored bytes are not byte-identical to the input.
-/
theorem allocated_copy_strncpy_bug :
    (AllocatedByteArray.ofCopy [65, 0, 66] 3).sz = 3 ∧
    (AllocatedByteArray.ofCopy [65, 0, 66] 3).data = [65, 0, 0] ∧
    (AllocatedByteArray.ofCopy [65, 0, 66] 3).data ≠ [65, 0, 66] := by
  refine ⟨rfl, rfl, ?_⟩
  decide

/--
Counterexample for C2: on a concrete corrupted value, the status
`data_chunk` returns at the checksum-mismatch point is the generic
IOError status (message "Bad CRC32"), not a distinct ChecksumError
status.
-/
theorem data_chunk_crc_status_cex :
    ((corruptedView.iterateChunk 1).data_chunk).1
      = Status.IOError "Bad CRC32" ∧
    ((corruptedView.iterateChunk 1).data_chunk).1.IsChecksumError = false ∧
    ((corruptedView.iterateChunk 1).data_chunk).1.IsIOError = true := by
  decide

/--
Claim C2 (amended): whenever the decompressor has reported completion and
the accumulated checksum differs from the stored checksum, `data_chunk`
returns `IOError "Bad CRC32"` — an IOError-category status, the same
category a codec or I/O failure uses, distinguishable only by its message
text, and not a distinct ChecksumError status.
-/
theorem data_chunk_crc_mismatch_ioerror (a : SharedMmappedByteArray)
    (hc : a.size_compressed ≠ 0) (hf : a.compressorFrames = [])
    (hm : crc32Fun a.crc32Bytes ≠ a.crc32_value) :
    (a.data_chunk).1 = Status.IOError "Bad CRC32" ∧
    (a.data_chunk).1.IsIOError = true ∧
    (a.data_chunk).1.IsChecksumError = false := by
  simp [SharedMmappedByteArray.data_chunk, hc, hf, hm, Status.IsIOError,
    Status.IsChecksumError]

/--
Witness for C2 (amended): evaluated on the concrete corrupted value after
its single frame has been decoded.
-/
theorem data_chunk_crc_mismatch_ioerror_witness :
    ((corruptedView.iterateChunk 1).data_chunk).1
      = Status.IOError "Bad CRC32" :=
  (data_chunk_crc_mismatch_ioerror (corruptedView.iterateChunk 1)
    (by decide) (by decide) (by decide)).1

/--
Helper: state of a compressed view after `k` calls to `data_chunk`: the
codec has consumed the first `k` frames, the hasher has accumulated
exactly their bytes, and the stored metadata is unchanged.
-/
lemma iterateChunk_state (a : SharedMmappedByteArray)
    (hc : a.size_compressed ≠ 0) :
    ∀ k, k ≤ a.compressorFrames.length →
      (a.iterateChunk k).compressorFrames = a.compressorFrames.drop k ∧
      (a.iterateChunk k).crc32Bytes
        = a.crc32Bytes ++ (a.compressorFrames.take k).flatten ∧
      (a.iterateChunk k).size_compressed = a.size_compressed ∧
      (a.iterateChunk k).crc32_value = a.crc32_value := by
  intro k
  induction k with
  | zero =>
    intro _
    simp [SharedMmappedByteArray.iterateChunk]
  | succ k ih =>
    intro hk
    obtain ⟨hf, hb, hs, hv⟩ := ih (Nat.le_of_succ_le hk)
    have hklt : k < a.compressorFrames.length := hk
    have hdrop : a.compressorFrames.drop k
        = a.compressorFrames[k] :: a.compressorFrames.drop (k + 1) :=
      List.drop_eq_getElem_cons hklt
    rw [SharedMmappedByteArray.iterateChunk]
    simp only [SharedMmappedByteArray.data_chunk, hs, hf, hdrop, hb, hv]
    rw [if_neg hc]
    refine ⟨rfl, ?_, rfl, rfl⟩
    rw [List.take_succ, List.flatten_append,
      List.getElem?_eq_getElem hklt]
    simp [List.append_assoc]

/--
Claim C3: for a compressed view with a fresh hasher, successive calls to
`data_chunk` return the decoded frames in order with status OK; by the
call at which the codec reports completion, every decoded byte of the
stream has been streamed into the hasher; and that completion call
returns Done exactly when the checksum of the entire decoded stream
equals the stored checksum.
-/
theorem data_chunk_stream_checksum (a : SharedMmappedByteArray)
    (hc : a.size_compressed ≠ 0) (h0 : a.crc32Bytes = []) :
    (∀ k (hk : k < a.compressorFrames.length),
        ((a.iterateChunk k).data_chunk).1 = Status.OK ∧
        ((a.iterateChunk k).data_chunk).2.1
          = some (Chunk.fresh (a.compressorFrames.get ⟨k, hk⟩))) ∧
    (a.iterateChunk a.compressorFrames.length).crc32Bytes
      = a.compressorFrames.flatten ∧
    (((a.iterateChunk a.compressorFrames.length).data_chunk).1
        = Status.Done
      ↔ crc32Fun a.compressorFrames.flatten = a.crc32_value) := by
  have hlen := iterateChunk_state a hc a.compressorFrames.length le_rfl
  obtain ⟨hf, hb, hs, hv⟩ := hlen
  have hflat : (a.iterateChunk a.compressorFrames.length).crc32Bytes
      = a.compressorFrames.flatten := by
    rw [hb, h0, List.take_length]
    simp
  refine ⟨?_, hflat, ?_⟩
  · intro k hk
    obtain ⟨hfk, hbk, hsk, hvk⟩ :=
      iterateChunk_state a hc k (Nat.le_of_lt hk)
    have hdrop : a.compressorFrames.drop k
        = a.compressorFrames[k] :: a.compressorFrames.drop (k + 1) :=
      List.drop_eq_getElem_cons hk
    constructor <;>
      simp only [SharedMmappedByteArray.data_chunk, hsk, hc, if_neg hc,
        hfk, hdrop] <;> rfl
  · rw [List.drop_length] at hf
    simp only [SharedMmappedByteArray.data_chunk, hs, hc, if_neg hc, hf,
      hflat, hv]
    by_cases hm : crc32Fun a.compressorFrames.flatten = a.crc32_value
    · simp [hm]
    · simp [hm]

/--
Witness for C3: on the concrete two-frame view with matching stored
checksum, the completion call returns Done.
-/
theorem data_chunk_stream_checksum_witness :
    ((sampleCompressedView.iterateChunk 2).data_chunk).1 = Status.Done :=
  (data_chunk_stream_checksum sampleCompressedView (by decide)
    rfl).2.2.mpr (by decide)

/--
Claim C7: for a view whose stored value is uncompressed
(`size_compressed_ == 0`), a single `data_chunk` call returns the mapped
sub-region itself — the current data pointer of the view (offset into the
mapping) and size, with no copy into a fresh buffer — together with the
Done status, and leaves the view unchanged.
-/
theorem data_chunk_uncompressed_zero_copy (a : SharedMmappedByteArray)
    (h : a.size_compressed = 0) :
    a.data_chunk = (Status.Done, some (Chunk.mapped a.off a.sz), a) := by
  simp [SharedMmappedByteArray.data_chunk, h]

/-- Witness for C7: evaluated on a concrete uncompressed view. -/
theorem data_chunk_uncompressed_zero_copy_witness :
    (⟨[3, 4, 5], 1, 2, 0, 0, [], []⟩ :
        SharedMmappedByteArray).data_chunk
      = (Status.Done, some (Chunk.mapped 1 2),
          ⟨[3, 4, 5], 1, 2, 0, 0, [], []⟩) :=
  data_chunk_uncompressed_zero_copy ⟨[3, 4, 5], 1, 2, 0, 0, [], []⟩ rfl

/--
Claim C9: for both shared-ownership variants, `SetOffset(k, n)` with
`k + n` within the underlying buffer yields a view reporting
`size() = n` whose visible bytes are exactly the bytes of the buffer in
`[k, k+n)`.
-/
theorem setoffset_view_bytes (a : SharedMmappedByteArray)
    (b : SharedAllocatedByteArray) (k n : Nat)
    (hm : k + n ≤ a.mmapBuf.length)
    (hh : k + n ≤ b.data_allocated.length) :
    (a.SetOffset k n).sz = n ∧
    (a.SetOffset k n).viewBytes.length = n ∧
    (∀ i, i < n → (a.SetOffset k n).viewBytes[i]? = a.mmapBuf[k + i]?) ∧
    (b.SetOffset k n).sz = n ∧
    (b.SetOffset k n).viewBytes.length = n ∧
    (∀ i, i < n →
        (b.SetOffset k n).viewBytes[i]? = b.data_allocated[k + i]?) := by
  refine ⟨rfl, ?_, ?_, rfl, ?_, ?_⟩
  · simp [SharedMmappedByteArray.SetOffset,
      SharedMmappedByteArray.viewBytes]
    omega
  · intro i hi
    simp [SharedMmappedByteArray.SetOffset,
      SharedMmappedByteArray.viewBytes, List.getElem?_take, hi,
      List.getElem?_drop]
  · simp [SharedAllocatedByteArray.SetOffset,
      SharedAllocatedByteArray.viewBytes]
    omega
  · intro i hi
    simp [SharedAllocatedByteArray.SetOffset,
      SharedAllocatedByteArray.viewBytes, List.getElem?_take, hi,
      List.getElem?_drop]

/--
Witness for C9: a concrete offset-and-size sub-view over the buffer
`[3, 4, 5, 6]`.
-/
theorem setoffset_view_bytes_witness :
    ((⟨[3, 4, 5, 6], 0, 0, 0, 0, [], []⟩ :
        SharedMmappedByteArray).SetOffset 1 2).viewBytes.length = 2 ∧
    ((⟨[3, 4, 5, 6], 0, 0⟩ :
        SharedAllocatedByteArray).SetOffset 1 2).viewBytes[0]? = some 4 :=
  ⟨(setoffset_view_bytes ⟨[3, 4, 5, 6], 0, 0, 0, 0, [], []⟩
      ⟨[3, 4, 5, 6], 0, 0⟩ 1 2 (by decide) (by decide)).2.1,
   ((setoffset_view_bytes ⟨[3, 4, 5, 6], 0, 0, 0, 0, [], []⟩
      ⟨[3, 4, 5, 6], 0, 0⟩ 1 2 (by decide) (by decide)).2.2.2.2.2 0
      (by decide)).trans (by decide)⟩

/--
Claim C10: for well-formed views, `operator==` holds exactly when the two
full binary contents of the views (all `size()` bytes, embedded NUL bytes
included) coincide — which forces the sizes to coincide — and the
comparison is reflexive and symmetric.
-/
theorem bytearray_eq_content (a b : ByteArrayView)
    (ha : a.sz ≤ a.mem.length) (hb : b.sz ≤ b.mem.length) :
    (a.eqOp b = true ↔ a.content = b.content) ∧
    a.eqOp a = true ∧
    a.eqOp b = b.eqOp a := by
  have hlen : ∀ (v : ByteArrayView), v.sz ≤ v.mem.length →
      v.content.length = v.sz := by
    intro v hv
    simp [ByteArrayView.content]
    omega
  refine ⟨?_, ?_, ?_⟩
  · constructor
    · intro h
      simp only [ByteArrayView.eqOp, Bool.and_eq_true, beq_iff_eq] at h
      obtain ⟨hsz, htake⟩ := h
      simp only [ByteArrayView.content]
      rw [← hsz]
      exact htake
    · intro h
      have h1 : a.sz = b.sz := by
        rw [← hlen a ha, ← hlen b hb, h]
      simp only [ByteArrayView.eqOp, Bool.and_eq_true, beq_iff_eq]
      refine ⟨h1, ?_⟩
      have h2 : a.mem.take a.sz = b.mem.take b.sz := h
      rw [h2, h1]
  · simp [ByteArrayView.eqOp]
  · by_cases hsz : a.sz = b.sz
    · have h1 : (a.sz == b.sz) = true := by simp [hsz]
      have h2 : (b.sz == a.sz) = true := by simp [hsz]
      simp only [ByteArrayView.eqOp, h1, h2, Bool.true_and]
      rw [hsz, Bool.eq_iff_iff]
      simp only [beq_iff_eq]
      exact eq_comm
    · have h1 : (a.sz == b.sz) = false := by simp [hsz]
      have h2 : (b.sz == a.sz) = false := by simp [Ne.symm hsz]
      simp only [ByteArrayView.eqOp, h1, h2, Bool.false_and]

/-- Witness for C10: two concrete views with equal two-byte contents. -/
theorem bytearray_eq_content_witness :
    (⟨[1, 2, 3], 2⟩ : ByteArrayView).eqOp ⟨[1, 2, 3], 2⟩ = true ∧
    (⟨[1, 2, 3], 2⟩ : ByteArrayView).eqOp ⟨[1, 2, 9], 2⟩ = true :=
  ⟨(bytearray_eq_content ⟨[1, 2, 3], 2⟩ ⟨[1, 2, 9], 2⟩ (by decide)
      (by decide)).2.1,
   (bytearray_eq_content ⟨[1, 2, 3], 2⟩ ⟨[1, 2, 9], 2⟩ (by decide)
      (by decide)).1.mpr (by decide)⟩

end KingDB
